import Mathlib

/-!
Shallow embedding of the authenticated API client of the facebook-insights
frontend (`src/frontend/src/utils/api.js`) together with the Zustand auth
store `useAuthStore` that it drives.  Pure data is modelled directly; the
store's mutable state and the axios instance's default headers are threaded
explicitly as a `ClientState`.  Outcomes of the HTTP calls that the code
awaits (the refresh POST, the re-issued original request, the logout POST)
are supplied as explicit parameters, mirroring the event-loop model in
which each `await` resumes with either a resolved response or an error.
-/

namespace FacebookInsights

/-- JavaScript truthiness of an optional string value: `undefined`/`null`
and the empty string are falsy. -/
def truthy : Option String → Bool
  | none => false
  | some s => s ≠ ""

/-- JavaScript `x || d` on an optional string with a string default. -/
def jsOr (x : Option String) (d : String) : String :=
  match x with
  | none => d
  | some s => if s = "" then d else s

/-- Template-literal rendering of an optional string
(`undefined` prints as the string "undefined"). -/
def jsUndef : Option String → String
  | none => "undefined"
  | some s => s

/-- The JSON body of a response, with the fields this code reads
(`access_token`, `refresh_token`, `user`, `detail`); absent fields are
`none`. -/
structure ResponseBody where
  access_token : Option String
  refresh_token : Option String
  user : Option String
  detail : Option String
deriving Repr, DecidableEq

/-- An HTTP response as seen through axios: status code, parsed body, and
the one response header this code reads (`retry-after`). -/
structure HttpResponse where
  status : Nat
  body : ResponseBody
  retryAfter : Option String
deriving Repr, DecidableEq

/-- An axios request config: url, query params, headers, and the `_retry`
marker the response interceptor sets on a config it has already retried. -/
structure RequestConfig where
  url : String
  params : List (String × String)
  headers : List (String × String)
  _retry : Bool
deriving Repr, DecidableEq

/-- An axios error: the (resolved) config of the failed request, the
response when one was received (`none` on network failure), and the error
message. -/
structure AxiosErr where
  config : RequestConfig
  response : Option HttpResponse
  message : String
deriving Repr, DecidableEq

/-- The outcome of one awaited HTTP call: axios resolves with a response
(2xx) or throws an error. -/
inductive ApiOutcome where
  | ok (resp : HttpResponse)
  | err (e : AxiosErr)
deriving Repr, DecidableEq

/-- A JavaScript error value as thrown by the store: either an axios error
or a plain `Error(message)`. -/
inductive JsError where
  | axios (e : AxiosErr)
  | plain (message : String)
deriving Repr, DecidableEq

/-- A dynamically typed value, enough for the `user` field, which holds
`null`, a user id from a response body, or (after `updateProfile`) the
whole response body. -/
inductive JsVal where
  | undef
  | str (s : String)
  | obj (b : ResponseBody)
deriving Repr, DecidableEq

/-- Lift an optional string from a response body into a `JsVal`. -/
def jsOfOpt : Option String → JsVal
  | none => JsVal.undef
  | some s => JsVal.str s

/-- The state slice of `useAuthStore`. -/
structure AuthState where
  user : JsVal
  accessToken : Option String
  refreshToken : Option String
  isAuthenticated : Bool
  isLoading : Bool
deriving Repr, DecidableEq

/-- The auth store state together with the axios instance's default
`Authorization` header (`api.defaults.headers.common.Authorization`). -/
structure ClientState where
  auth : AuthState
  authHeader : Option String
deriving Repr, DecidableEq

/-- The store's initial state: everything cleared, no default header. -/
def initialState : ClientState :=
  { auth := { user := JsVal.undef, accessToken := none, refreshToken := none,
              isAuthenticated := false, isLoading := false },
    authHeader := none }

/-- Observable side effects: toasts, console logging, and a navigation to
another location (`window.location.href = ...`). -/
inductive Effect where
  | toastSuccess (msg : String)
  | toastError (msg : String)
  | consoleError (msg : String)
  | redirect (path : String)
deriving Repr, DecidableEq

/-- `Bearer ${access_token}` as built by the store. -/
def bearer (t : Option String) : String := "Bearer " ++ jsUndef t

/-- `logout` from `useAuthStore`: POST `/auth/logout` (its failure is only
logged), clear all state fields, delete the default `Authorization` header,
and toast.  `logoutCallOk` is the outcome of the POST. -/
def logout (_s : ClientState) (logoutCallOk : Bool) : ClientState × List Effect :=
  let effs := if logoutCallOk then [] else [Effect.consoleError "Logout API call failed:"]
  ({ auth := { user := JsVal.undef, accessToken := none, refreshToken := none,
               isAuthenticated := false, isLoading := false },
     authHeader := none },
   effs ++ [Effect.toastSuccess "Successfully logged out"])

/-- `refreshAccessToken` from `useAuthStore`: throw when no refresh token
is held, otherwise POST `/auth/refresh` (outcome `refreshOutcome`); on
success store the returned tokens, mark authenticated, update the default
header and return the new token; any throw is caught, triggers `logout`
(whose POST outcome is `logoutCallOk`) and is re-thrown. -/
def refreshAccessToken (s : ClientState) (refreshOutcome : ApiOutcome)
    (logoutCallOk : Bool) : ClientState × List Effect × Except JsError String :=
  if truthy s.auth.refreshToken then
    match refreshOutcome with
    | ApiOutcome.ok resp =>
        ({ auth := { user := jsOfOpt resp.body.user,
                     accessToken := resp.body.access_token,
                     refreshToken := resp.body.refresh_token,
                     isAuthenticated := true,
                     isLoading := s.auth.isLoading },
           authHeader := some (bearer resp.body.access_token) },
         [], Except.ok (jsUndef resp.body.access_token))
    | ApiOutcome.err e =>
        let r := logout s logoutCallOk
        (r.1, r.2, Except.error (JsError.axios e))
  else
    let r := logout s logoutCallOk
    (r.1, r.2, Except.error (JsError.plain "No refresh token available"))

/-- `login` from `useAuthStore`: POST `/auth/login`; on success store the
tokens and user, mark authenticated, set the default header, toast; on
failure only reset `isLoading` and toast the `detail` (or a fallback).
Returns the `{ success, error? }` object. -/
def login (s : ClientState) (outcome : ApiOutcome) :
    ClientState × List Effect × (Bool × Option String) :=
  match outcome with
  | ApiOutcome.ok resp =>
      ({ auth := { user := jsOfOpt resp.body.user,
                   accessToken := resp.body.access_token,
                   refreshToken := resp.body.refresh_token,
                   isAuthenticated := true, isLoading := false },
         authHeader := some (bearer resp.body.access_token) },
       [Effect.toastSuccess "Successfully logged in!"],
       (true, none))
  | ApiOutcome.err e =>
      let msg := jsOr (e.response.bind (fun r => r.body.detail)) "Login failed"
      ({ s with auth := { s.auth with isLoading := false } },
       [Effect.toastError msg], (false, some msg))

/-- `register` from `useAuthStore`: same shape as `login` against
`/auth/register`, with its own messages. -/
def register (s : ClientState) (outcome : ApiOutcome) :
    ClientState × List Effect × (Bool × Option String) :=
  match outcome with
  | ApiOutcome.ok resp =>
      ({ auth := { user := jsOfOpt resp.body.user,
                   accessToken := resp.body.access_token,
                   refreshToken := resp.body.refresh_token,
                   isAuthenticated := true, isLoading := false },
         authHeader := some (bearer resp.body.access_token) },
       [Effect.toastSuccess "Account created successfully!"],
       (true, none))
  | ApiOutcome.err e =>
      let msg := jsOr (e.response.bind (fun r => r.body.detail)) "Registration failed"
      ({ s with auth := { s.auth with isLoading := false } },
       [Effect.toastError msg], (false, some msg))

/-- `loginWithFacebook` from `useAuthStore`: same shape as `login` against
`/auth/facebook`, with its own messages. -/
def loginWithFacebook (s : ClientState) (outcome : ApiOutcome) :
    ClientState × List Effect × (Bool × Option String) :=
  match outcome with
  | ApiOutcome.ok resp =>
      ({ auth := { user := jsOfOpt resp.body.user,
                   accessToken := resp.body.access_token,
                   refreshToken := resp.body.refresh_token,
                   isAuthenticated := true, isLoading := false },
         authHeader := some (bearer resp.body.access_token) },
       [Effect.toastSuccess "Successfully logged in with Facebook!"],
       (true, none))
  | ApiOutcome.err e =>
      let msg := jsOr (e.response.bind (fun r => r.body.detail)) "Facebook login failed"
      ({ s with auth := { s.auth with isLoading := false } },
       [Effect.toastError msg], (false, some msg))

/-- `updateProfile` from `useAuthStore`: PUT `/users/profile`; on success
replace `user` by the whole response body and toast; on failure toast the
`detail` (or a fallback). -/
def updateProfile (s : ClientState) (outcome : ApiOutcome) :
    ClientState × List Effect × (Bool × Option String) :=
  match outcome with
  | ApiOutcome.ok resp =>
      ({ s with auth := { s.auth with user := JsVal.obj resp.body } },
       [Effect.toastSuccess "Profile updated successfully!"],
       (true, none))
  | ApiOutcome.err e =>
      let msg := jsOr (e.response.bind (fun r => r.body.detail)) "Profile update failed"
      (s, [Effect.toastError msg], (false, some msg))

/-- The store action named `initialize` in `useAuthStore` (that word is a
reserved keyword here, hence the suffix): when an access token is
(truthily) held, set the default `Authorization` header from it and mark
the session authenticated; otherwise do nothing. -/
def initializeAuth (s : ClientState) : ClientState :=
  if truthy s.auth.accessToken then
    { auth := { s.auth with isAuthenticated := true },
      authHeader := some (bearer s.auth.accessToken) }
  else s

/-- Set key `k` to `v` in an association list, JavaScript-object-spread
style: an existing binding is overwritten in place, otherwise the pair is
appended. -/
def setParam (ps : List (String × String)) (k v : String) : List (String × String) :=
  if ps.any (fun p => p.1 == k) then
    ps.map (fun p => if p.1 == k then (k, v) else p)
  else ps ++ [(k, v)]

/-- Number of bindings of key `k` among the headers/params `hs`. -/
def countKey (hs : List (String × String)) (k : String) : Nat :=
  (hs.filter (fun p => p.1 == k)).length

/-- First binding of key `k` among the headers/params `hs`. -/
def lookupKey (hs : List (String × String)) (k : String) : Option String :=
  (hs.find? (fun p => p.1 == k)).map Prod.snd

/-- The request interceptor (`api.interceptors.request.use`): merge a
cache-busting `_t = Date.now()` entry into the config's params. -/
def requestInterceptor (now : Nat) (cfg : RequestConfig) : RequestConfig :=
  { cfg with params := setParam cfg.params "_t" (toString now) }

/-- Axios dispatch merges the instance's default headers under the
config's own headers; a header already present on the config takes
precedence over the default.  Only the `Authorization` default is
modelled. -/
def withDefaultHeaders (authHeader : Option String)
    (hs : List (String × String)) : List (String × String) :=
  match authHeader with
  | none => hs
  | some v =>
      if hs.any (fun p => p.1 == "Authorization") then hs
      else hs ++ [("Authorization", v)]

/-- The fully resolved request as it goes on the wire: default headers
merged in and the request interceptor applied. -/
def resolveRequest (s : ClientState) (now : Nat) (cfg : RequestConfig) :
    RequestConfig :=
  let cfg1 := requestInterceptor now cfg
  { cfg1 with headers := withDefaultHeaders s.authHeader cfg1.headers }

/-- The status carried by an axios error, when a response was received. -/
def statusOf (e : AxiosErr) : Option Nat := e.response.map (fun r => r.status)

/-- The toast notifications the response interceptor emits for an error
(the 403/404/429/5xx/network-failure chain of `if`s). -/
def statusToasts (e : AxiosErr) : List Effect :=
  (if statusOf e = some 403 then
    [Effect.toastError "You do not have permission to perform this action"] else []) ++
  (if statusOf e = some 404 then
    [Effect.toastError "The requested resource was not found"] else []) ++
  (match e.response with
   | some r =>
      if r.status = 429 then
        [Effect.toastError ("Too many requests. Please try again in " ++
          jsOr r.retryAfter "60" ++ " seconds")]
      else []
   | none => []) ++
  (match e.response with
   | some r =>
      if 500 ≤ r.status then
        [Effect.toastError "Server error. Please try again later"] else []
   | none => []) ++
  (match e.response with
   | some _ => []
   | none => [Effect.toastError "Network error. Please check your connection"])

/-- The environment of one run of the response error interceptor: outcomes
of the HTTP calls it may await, and the clock value at the re-issued
request. -/
structure Env where
  refreshOutcome : ApiOutcome
  retryNow : Nat
  retryOutcome : ApiOutcome
  logoutCallOk : Bool
  logoutCallOk2 : Bool
deriving Repr

/-- Result of one run of the response error interceptor: the client state
afterwards, the emitted effects, the settled value of the request's
promise, and the resolved config of the re-issued request when one was
dispatched. -/
structure InterceptorRun where
  state : ClientState
  effects : List Effect
  result : Except JsError HttpResponse
  retried : Option RequestConfig
deriving Repr

/-- The error branch of `api.interceptors.response.use`.  On a 401 for a
config not yet marked `_retry`: mark it, and when a refresh token is held
run `refreshAccessToken`; on refresh success re-dispatch the original
config through the instance (the retry's own error passes through this
interceptor again, now with `_retry` set, so it only gains its toasts and
is rejected — the `return api(originalRequest)` is not awaited, so the
local catch never sees it); on refresh throw, the catch runs `logout`
again, navigates to `/login` and rejects with the refresh error.  All
other errors (including a 401 with no refresh token, which falls out of
the `if`) gain their status toasts and are rejected unchanged apart from
the `_retry` mark. -/
def responseErrorInterceptor (s : ClientState) (env : Env) (e : AxiosErr) :
    InterceptorRun :=
  if statusOf e = some 401 ∧ e.config._retry = false then
    let cfg1 : RequestConfig := { e.config with _retry := true }
    if truthy s.auth.refreshToken then
      let r := refreshAccessToken s env.refreshOutcome env.logoutCallOk
      match r.2.2 with
      | Except.ok _ =>
          let retryCfg := resolveRequest r.1 env.retryNow cfg1
          match env.retryOutcome with
          | ApiOutcome.ok resp =>
              { state := r.1, effects := r.2.1,
                result := Except.ok resp, retried := some retryCfg }
          | ApiOutcome.err e2 =>
              let e2' : AxiosErr := { e2 with config := retryCfg }
              { state := r.1, effects := r.2.1 ++ statusToasts e2',
                result := Except.error (JsError.axios e2'),
                retried := some retryCfg }
      | Except.error refreshError =>
          let l := logout r.1 env.logoutCallOk2
          { state := l.1,
            effects := r.2.1 ++ l.2 ++ [Effect.redirect "/login"],
            result := Except.error refreshError, retried := none }
    else
      { state := s, effects := statusToasts e,
        result := Except.error (JsError.axios { e with config := cfg1 }),
        retried := none }
  else
    { state := s, effects := statusToasts e,
      result := Except.error (JsError.axios e), retried := none }

/-- The result object of the `apiClient` helpers: `{ data, success,
error? }`. -/
structure ClientResult where
  data : Option ResponseBody
  success : Bool
  error : Option String
deriving Repr, DecidableEq

/-- `apiClient.get`: await the request; resolve `{ data, success: true }`
on success, and on any error resolve (never reject)
`{ data: null, success: false, error: detail || message }`. -/
def apiClient.get (outcome : ApiOutcome) : ClientResult :=
  match outcome with
  | ApiOutcome.ok response =>
      { data := some response.body, success := true, error := none }
  | ApiOutcome.err error =>
      { data := none, success := false,
        error := some (jsOr (error.response.bind (fun r => r.body.detail))
          error.message) }

/-- `apiClient.post`: same handling as `apiClient.get`. -/
def apiClient.post (outcome : ApiOutcome) : ClientResult :=
  match outcome with
  | ApiOutcome.ok response =>
      { data := some response.body, success := true, error := none }
  | ApiOutcome.err error =>
      { data := none, success := false,
        error := some (jsOr (error.response.bind (fun r => r.body.detail))
          error.message) }

/-- `apiClient.put`: same handling as `apiClient.get`. -/
def apiClient.put (outcome : ApiOutcome) : ClientResult :=
  match outcome with
  | ApiOutcome.ok response =>
      { data := some response.body, success := true, error := none }
  | ApiOutcome.err error =>
      { data := none, success := false,
        error := some (jsOr (error.response.bind (fun r => r.body.detail))
          error.message) }

/-- `apiClient.delete`: same handling as `apiClient.get`. -/
def apiClient.delete (outcome : ApiOutcome) : ClientResult :=
  match outcome with
  | ApiOutcome.ok response =>
      { data := some response.body, success := true, error := none }
  | ApiOutcome.err error =>
      { data := none, success := false,
        error := some (jsOr (error.response.bind (fun r => r.body.detail))
          error.message) }

/-- States of the auth store reachable from the initial state through the
store's actions (`loading` covers the transient `set({ isLoading })`
updates at the start of the async actions; each action's awaited call
outcome is arbitrary). -/
inductive Reachable : ClientState → Prop where
  | init : Reachable initialState
  | loading (s : ClientState) (b : Bool) : Reachable s →
      Reachable { s with auth := { s.auth with isLoading := b } }
  | loginStep (s : ClientState) (o : ApiOutcome) : Reachable s →
      Reachable (login s o).1
  | registerStep (s : ClientState) (o : ApiOutcome) : Reachable s →
      Reachable (register s o).1
  | facebookStep (s : ClientState) (o : ApiOutcome) : Reachable s →
      Reachable (loginWithFacebook s o).1
  | logoutStep (s : ClientState) (k : Bool) : Reachable s →
      Reachable (logout s k).1
  | refreshStep (s : ClientState) (o : ApiOutcome) (k : Bool) : Reachable s →
      Reachable (refreshAccessToken s o k).1
  | profileStep (s : ClientState) (o : ApiOutcome) : Reachable s →
      Reachable (updateProfile s o).1
  | initStep (s : ClientState) : Reachable s →
      Reachable (initializeAuth s)

/-- The session invariant maintained by the store: an access token is held
only while `isAuthenticated` is set, and whenever an access token is held
the axios default `Authorization` header is `Bearer` followed by exactly
that token. -/
def sessionInv (s : ClientState) : Prop :=
  (s.auth.accessToken ≠ none → s.auth.isAuthenticated = true) ∧
  (∀ t, s.auth.accessToken = some t → s.authHeader = some ("Bearer " ++ t))

theorem reachable_sessionInv {s : ClientState} (h : Reachable s) : sessionInv s := by
  induction h with
  | init => exact ⟨fun hc => absurd rfl hc, fun t ht => by simp [initialState] at ht⟩
  | loading s b _ ih => exact ih
  | loginStep s o _ ih =>
      cases o with
      | ok resp =>
          refine ⟨fun _ => rfl, fun t ht => ?_⟩
          simp [login] at ht ⊢
          simp [bearer, ht, jsUndef]
      | err e => exact ih
  | registerStep s o _ ih =>
      cases o with
      | ok resp =>
          refine ⟨fun _ => rfl, fun t ht => ?_⟩
          simp [register] at ht ⊢
          simp [bearer, ht, jsUndef]
      | err e => exact ih
  | facebookStep s o _ ih =>
      cases o with
      | ok resp =>
          refine ⟨fun _ => rfl, fun t ht => ?_⟩
          simp [loginWithFacebook] at ht ⊢
          simp [bearer, ht, jsUndef]
      | err e => exact ih
  | logoutStep s k _ _ => simp [sessionInv, logout]
  | refreshStep s o k _ ih =>
      cases htr : truthy s.auth.refreshToken with
      | false => simp [sessionInv, refreshAccessToken, htr, logout]
      | true =>
          cases o with
          | ok resp =>
              refine ⟨fun _ => ?_, fun t ht => ?_⟩
              · simp [refreshAccessToken, htr]
              · simp [refreshAccessToken, htr] at ht ⊢
                simp [bearer, ht, jsUndef]
          | err e => simp [sessionInv, refreshAccessToken, htr, logout]
  | profileStep s o _ ih =>
      cases o with
      | ok resp => exact ih
      | err e => exact ih
  | initStep s _ ih =>
      cases hta : truthy s.auth.accessToken with
      | false => simpa [initializeAuth, hta] using ih
      | true =>
          refine ⟨fun _ => ?_, fun t ht => ?_⟩
          · simp [initializeAuth, hta]
          · simp [initializeAuth, hta] at ht ⊢
            simp [bearer, ht, jsUndef]

/-- Claim C4: for every auth store state reachable through the store's
actions (login, register, loginWithFacebook, logout, refreshAccessToken,
updateProfile, initialize), `accessToken` is non-null only while
`isAuthenticated` is true. -/
theorem c4_access_token_only_while_authenticated {s : ClientState}
    (h : Reachable s) : s.auth.accessToken ≠ none → s.auth.isAuthenticated = true :=
  (reachable_sessionInv h).1

/-- A successful login response used by concrete scenarios. -/
def loginBody : ResponseBody :=
  { access_token := some "oldtok", refresh_token := some "rtok",
    user := some "alice", detail := none }

/-- The state after a successful login from the initial state: access
token `oldtok`, refresh token `rtok`, default header `Bearer oldtok`. -/
def loggedIn : ClientState :=
  (login initialState (ApiOutcome.ok
    { status := 200, body := loginBody, retryAfter := none })).1

theorem c4_access_token_only_while_authenticated_witness :
    loggedIn.auth.isAuthenticated = true :=
  c4_access_token_only_while_authenticated
    (Reachable.loginStep initialState
      (ApiOutcome.ok { status := 200, body := loginBody, retryAfter := none })
      Reachable.init)
    (by decide)

/-- Claim C5: `logout` always clears all four session fields and removes
the default `Authorization` header, whatever state it starts from and
whether the server-side logout call succeeded (`k = true`) or failed
(`k = false`). -/
theorem c5_logout_clears_session (s : ClientState) (k : Bool) :
    (logout s k).1.auth.user = JsVal.undef ∧
    (logout s k).1.auth.accessToken = none ∧
    (logout s k).1.auth.refreshToken = none ∧
    (logout s k).1.auth.isAuthenticated = false ∧
    (logout s k).1.authHeader = none :=
  ⟨rfl, rfl, rfl, rfl, rfl⟩

lemma find?_overwrite (ps : List (String × String)) (k v : String)
    (h : ps.any (fun p => p.1 == k) = true) :
    (ps.map (fun p => if p.1 == k then (k, v) else p)).find?
      (fun p => p.1 == k) = some (k, v) := by
  induction ps with
  | nil => simp at h
  | cons p t ih =>
      rw [List.map_cons]
      by_cases hp : (p.1 == k) = true
      · have hhead : (if (p.1 == k) = true then (k, v) else p) = (k, v) :=
          if_pos hp
        rw [hhead]
        exact List.find?_cons_of_pos _ (by simp)
      · have hp' : (p.1 == k) = false := Bool.eq_false_iff.mpr hp
        have hany : t.any (fun p => p.1 == k) = true := by
          rw [List.any_cons, hp'] at h
          simpa using h
        have hhead : (if (p.1 == k) = true then (k, v) else p) = p := if_neg hp
        rw [hhead]
        simp only [List.find?_cons, hp']
        exact ih hany

lemma find?_map_ne (ps : List (String × String)) (k v k' : String)
    (h : k' ≠ k) :
    (ps.map (fun p => if p.1 == k then (k, v) else p)).find?
      (fun p => p.1 == k') = ps.find? (fun p => p.1 == k') := by
  have hkk' : (k == k') = false := beq_eq_false_iff_ne.2 (Ne.symm h)
  induction ps with
  | nil => rfl
  | cons p t ih =>
      rw [List.map_cons]
      by_cases hp : (p.1 == k) = true
      · have hpk : p.1 = k := eq_of_beq hp
        have hhead : (if (p.1 == k) = true then (k, v) else p) = (k, v) :=
          if_pos hp
        have horig : (p.1 == k') = false := by rw [hpk]; exact hkk'
        rw [hhead]
        simp only [List.find?_cons, hkk', horig]
        exact ih
      · have hhead : (if (p.1 == k) = true then (k, v) else p) = p := if_neg hp
        rw [hhead]
        cases hq : (p.1 == k') with
        | true => simp only [List.find?_cons, hq]
        | false =>
            simp only [List.find?_cons, hq]
            exact ih

lemma find?_setParam_ne (ps : List (String × String)) (k v k' : String)
    (h : k' ≠ k) :
    (setParam ps k v).find? (fun p => p.1 == k') =
      ps.find? (fun p => p.1 == k') := by
  unfold setParam
  have hkk' : (k == k') = false := beq_eq_false_iff_ne.2 (Ne.symm h)
  split
  · exact find?_map_ne ps k v k' h
  · rw [List.find?_append]
    have : ([(k, v)].find? (fun p => p.1 == k')) = none := by simp [hkk']
    rw [this, Option.or_none]

lemma lookupKey_setParam (ps : List (String × String)) (k v : String) :
    lookupKey (setParam ps k v) k = some v := by
  unfold lookupKey setParam
  by_cases h : ps.any (fun p => p.1 == k) = true
  · rw [if_pos h, find?_overwrite ps k v h]
    rfl
  · have h' : ps.any (fun p => p.1 == k) = false := Bool.eq_false_iff.mpr h
    rw [if_neg (by simp [h']), List.find?_append]
    have hnone : ps.find? (fun p => p.1 == k) = none :=
      List.find?_eq_none.2 (List.any_eq_false.mp h')
    rw [hnone]
    simp

lemma lookupKey_setParam_ne (ps : List (String × String)) (k v k' : String)
    (h : k' ≠ k) : lookupKey (setParam ps k v) k' = lookupKey ps k' := by
  unfold lookupKey
  rw [find?_setParam_ne ps k v k' h]

/-- Claim C9: every outbound request leaves the request interceptor with a
cache-busting `_t` timestamp parameter merged into its params: the
resolved request binds `_t` to the clock value, and every other parameter
of the caller's config is preserved. -/
theorem c9_cache_busting_param (s : ClientState) (now : Nat) (cfg : RequestConfig) :
    lookupKey (resolveRequest s now cfg).params "_t" = some (toString now) ∧
    ∀ k, k ≠ "_t" →
      lookupKey (resolveRequest s now cfg).params k = lookupKey cfg.params k := by
  constructor
  · exact lookupKey_setParam cfg.params "_t" (toString now)
  · intro k hk
    exact lookupKey_setParam_ne cfg.params "_t" (toString now) k hk

/-- A caller-side request config with no headers of its own, as the stores
issue them. -/
def plainCfg : RequestConfig :=
  { url := "/analytics/overview", params := [("page", "1")],
    headers := [], _retry := false }

theorem c9_cache_busting_param_witness :
    lookupKey (resolveRequest initialState 5 plainCfg).params "_t" = some "5" ∧
    lookupKey (resolveRequest initialState 5 plainCfg).params "page" =
      lookupKey plainCfg.params "page" :=
  ⟨(c9_cache_busting_param initialState 5 plainCfg).1,
   (c9_cache_busting_param initialState 5 plainCfg).2 "page" (by decide)⟩

lemma any_false_of_countKey_zero (hs : List (String × String)) (k : String)
    (h : countKey hs k = 0) : hs.any (fun p => p.1 == k) = false := by
  simp only [countKey, List.length_eq_zero, List.filter_eq_nil_iff] at h
  simp only [List.any_eq_false]
  exact h

/-- Claim C6: a request issued while a session exists (the store holds
access token `t`) and whose own config carries no `Authorization` header
goes on the wire with exactly one `Authorization` header, whose value is
`Bearer t`. -/
theorem c6_single_bearer_header (s : ClientState) (h : Reachable s)
    (t : String) (ht : s.auth.accessToken = some t) (now : Nat)
    (cfg : RequestConfig) (hcfg : countKey cfg.headers "Authorization" = 0) :
    countKey (resolveRequest s now cfg).headers "Authorization" = 1 ∧
    lookupKey (resolveRequest s now cfg).headers "Authorization" =
      some ("Bearer " ++ t) := by
  have hH : s.authHeader = some ("Bearer " ++ t) :=
    (reachable_sessionInv h).2 t ht
  have hany : cfg.headers.any (fun p => p.1 == "Authorization") = false :=
    any_false_of_countKey_zero cfg.headers "Authorization" hcfg
  have hres : (resolveRequest s now cfg).headers =
      cfg.headers ++ [("Authorization", "Bearer " ++ t)] := by
    simp [resolveRequest, requestInterceptor, withDefaultHeaders, hH, hany]
  constructor
  · have hstep : countKey (cfg.headers ++ [("Authorization", "Bearer " ++ t)])
        "Authorization" = countKey cfg.headers "Authorization" + 1 := by
      simp [countKey, List.filter_append]
    rw [hres, hstep, hcfg]
  · have hnone : cfg.headers.find? (fun p => p.1 == "Authorization") = none :=
      List.find?_eq_none.2 (List.any_eq_false.mp hany)
    rw [hres]
    unfold lookupKey
    rw [List.find?_append, hnone]
    simp

theorem c6_single_bearer_header_witness :
    countKey (resolveRequest loggedIn 7 plainCfg).headers "Authorization" = 1 ∧
    lookupKey (resolveRequest loggedIn 7 plainCfg).headers "Authorization" =
      some ("Bearer " ++ "oldtok") :=
  c6_single_bearer_header loggedIn
    (Reachable.loginStep initialState
      (ApiOutcome.ok { status := 200, body := loginBody, retryAfter := none })
      Reachable.init)
    "oldtok" rfl 7 plainCfg rfl

lemma statusToasts_some (e : AxiosErr) (r : HttpResponse)
    (hr : e.response = some r) :
    statusToasts e =
      (if r.status = 403 then
        [Effect.toastError "You do not have permission to perform this action"] else []) ++
      (if r.status = 404 then
        [Effect.toastError "The requested resource was not found"] else []) ++
      (if r.status = 429 then
        [Effect.toastError ("Too many requests. Please try again in " ++
          jsOr r.retryAfter "60" ++ " seconds")] else []) ++
      (if 500 ≤ r.status then
        [Effect.toastError "Server error. Please try again later"] else []) := by
  unfold statusToasts statusOf
  rw [hr]
  simp

lemma statusToasts_none (e : AxiosErr) (h : e.response = none) :
    statusToasts e =
      [Effect.toastError "Network error. Please check your connection"] := by
  unfold statusToasts statusOf
  rw [h]
  simp

/-- An empty response body. -/
def emptyBody : ResponseBody :=
  { access_token := none, refresh_token := none, user := none, detail := none }

/-- Claim C7: for every response with status 429 the interceptor's only
effect is a rate-limit toast whose wait duration is the `retry-after`
header value (JavaScript `|| 60`: absent — or empty — header defaults to
`60`). -/
theorem c7_rate_limit_toast (s : ClientState) (env : Env) (e : AxiosErr)
    (r : HttpResponse) (hr : e.response = some r) (h429 : r.status = 429) :
    (responseErrorInterceptor s env e).effects =
      [Effect.toastError ("Too many requests. Please try again in " ++
        jsOr r.retryAfter "60" ++ " seconds")] := by
  have hs : statusOf e = some 429 := by simp [statusOf, hr, h429]
  have hne : ¬(statusOf e = some 401 ∧ e.config._retry = false) := by
    rintro ⟨h1, _⟩
    rw [hs] at h1
    simp at h1
  unfold responseErrorInterceptor
  rw [if_neg hne]
  show statusToasts e = _
  rw [statusToasts_some e r hr]
  simp [h429]

/-- An environment whose awaited calls all succeed trivially; used by
scenarios that never reach them. -/
def idleEnv : Env :=
  { refreshOutcome := ApiOutcome.ok { status := 200, body := emptyBody, retryAfter := none },
    retryNow := 0,
    retryOutcome := ApiOutcome.ok { status := 200, body := emptyBody, retryAfter := none },
    logoutCallOk := true, logoutCallOk2 := true }

/-- A 429 error with `retry-after: 45`. -/
def rateLimitedErr : AxiosErr :=
  { config := plainCfg,
    response := some { status := 429, body := emptyBody, retryAfter := some "45" },
    message := "Request failed with status code 429" }

theorem c7_rate_limit_toast_witness :
    (responseErrorInterceptor initialState idleEnv rateLimitedErr).effects =
      [Effect.toastError "Too many requests. Please try again in 45 seconds"] := by
  rw [c7_rate_limit_toast initialState idleEnv rateLimitedErr
    { status := 429, body := emptyBody, retryAfter := some "45" } rfl rfl]
  rfl

lemma toast429_ne_network (w : String) :
    ("Too many requests. Please try again in " ++ w ++ " seconds") ≠
      "Network error. Please check your connection" := by
  intro hEq
  have hlen := congrArg String.length hEq
  rw [String.length_append, String.length_append] at hlen
  have l1 : "Too many requests. Please try again in ".length = 39 := rfl
  have l2 : " seconds".length = 8 := rfl
  have l3 : "Network error. Please check your connection".length = 43 := rfl
  rw [l1, l2, l3] at hlen
  omega

lemma network_toast_not_in_statusToasts (e2 : AxiosErr) (r2 : HttpResponse)
    (hr : e2.response = some r2) :
    Effect.toastError "Network error. Please check your connection" ∉
      statusToasts e2 := by
  rw [statusToasts_some e2 r2 hr]
  intro hmem
  simp only [List.mem_append] at hmem
  rcases hmem with ((h | h) | h) | h
  · revert h
    split
    · intro h
      simp at h
    · intro h
      simp at h
  · revert h
    split
    · intro h
      simp at h
    · intro h
      simp at h
  · revert h
    split
    · intro h
      simp only [List.mem_singleton] at h
      injection h with h'
      exact toast429_ne_network (jsOr r2.retryAfter "60") h'.symm
    · intro h
      simp at h
  · revert h
    split
    · intro h
      simp at h
    · intro h
      simp at h

/-- Claim C8: a failed request with no response object leaves the state
untouched, surfaces exactly the network-error toast, and is still rejected
to the caller; moreover that network classification never arises for an
error carrying an HTTP status. -/
theorem c8_network_error_distinct (s : ClientState) (env : Env) (e : AxiosErr)
    (h : e.response = none) :
    (responseErrorInterceptor s env e).effects =
      [Effect.toastError "Network error. Please check your connection"] ∧
    (responseErrorInterceptor s env e).result =
      Except.error (JsError.axios e) ∧
    (responseErrorInterceptor s env e).state = s ∧
    (∀ e2 r2, e2.response = some r2 →
      Effect.toastError "Network error. Please check your connection" ∉
        statusToasts e2) := by
  have hne : ¬(statusOf e = some 401 ∧ e.config._retry = false) := by
    rintro ⟨h1, _⟩
    rw [statusOf, h] at h1
    simp at h1
  unfold responseErrorInterceptor
  rw [if_neg hne]
  exact ⟨statusToasts_none e h, rfl, rfl, network_toast_not_in_statusToasts⟩

/-- A network failure: no response object at all. -/
def networkErr : AxiosErr :=
  { config := plainCfg, response := none, message := "Network Error" }

theorem c8_network_error_distinct_witness :
    (responseErrorInterceptor initialState idleEnv networkErr).effects =
      [Effect.toastError "Network error. Please check your connection"] ∧
    (responseErrorInterceptor initialState idleEnv networkErr).result =
      Except.error (JsError.axios networkErr) ∧
    Effect.toastError "Network error. Please check your connection" ∉
      statusToasts rateLimitedErr := by
  have h := c8_network_error_distinct initialState idleEnv networkErr rfl
  exact ⟨h.1, h.2.1, h.2.2.2 rateLimitedErr
    { status := 429, body := emptyBody, retryAfter := some "45" } rfl⟩

/-- All four session fields cleared, as after `logout`. -/
def sessionCleared (s : ClientState) : Prop :=
  s.auth.user = JsVal.undef ∧ s.auth.accessToken = none ∧
  s.auth.refreshToken = none ∧ s.auth.isAuthenticated = false

lemma redirect_not_in_statusToasts (e : AxiosErr) (p : String) :
    Effect.redirect p ∉ statusToasts e := by
  cases hr : e.response with
  | none =>
      rw [statusToasts_none e hr]
      simp
  | some r =>
      rw [statusToasts_some e r hr]
      intro hmem
      simp only [List.mem_append] at hmem
      rcases hmem with ((h | h) | h) | h <;> revert h <;> split <;> intro h <;>
        simp at h

/-- The resolved config of a first attempt issued from the logged-in
state: it already carries `Authorization: Bearer oldtok`. -/
def origCfg : RequestConfig := resolveRequest loggedIn 1 plainCfg

/-- The 401 received by that first attempt. -/
def origErr401 : AxiosErr :=
  { config := origCfg,
    response := some { status := 401, body := emptyBody, retryAfter := none },
    message := "Request failed with status code 401" }

/-- The body returned by a successful `/auth/refresh`. -/
def refreshedBody : ResponseBody :=
  { access_token := some "newtok", refresh_token := some "rtok2",
    user := some "alice", detail := none }

/-- The 401 received by the re-issued attempt. -/
def retryErr401 : AxiosErr :=
  { config := plainCfg,
    response := some { status := 401, body := emptyBody, retryAfter := none },
    message := "Request failed with status code 401" }

/-- Environment for the double-401 scenario: refresh succeeds, the
re-issued request fails with 401 again. -/
def c2Env : Env :=
  { refreshOutcome :=
      ApiOutcome.ok { status := 200, body := refreshedBody, retryAfter := none },
    retryNow := 2,
    retryOutcome := ApiOutcome.err retryErr401,
    logoutCallOk := true, logoutCallOk2 := true }

instance (s : ClientState) : Decidable (sessionCleared s) := by
  unfold sessionCleared
  infer_instance

/-- Counterexample to claim C2 as stated: a request 401s, the refresh
succeeds, the retried attempt 401s again — and the session is NOT torn
down (it keeps the freshly refreshed tokens and stays authenticated). -/
theorem c2_counterexample :
    ¬ sessionCleared (responseErrorInterceptor loggedIn c2Env origErr401).state := by
  decide

/-- Claim C2 as amended: when the first attempt 401s on a not-yet-retried
config, a refresh token is held, the refresh succeeds and the re-issued
attempt fails again, the retry's error is propagated (rejected, not
swallowed), but the session is not torn down: it holds the tokens of the
successful refresh and remains authenticated. -/
theorem c2_amended (s : ClientState) (env : Env) (e : AxiosErr)
    (resp : HttpResponse) (e2 : AxiosErr)
    (h401 : statusOf e = some 401) (hretry : e.config._retry = false)
    (htok : truthy s.auth.refreshToken = true)
    (hrefresh : env.refreshOutcome = ApiOutcome.ok resp)
    (hretryOut : env.retryOutcome = ApiOutcome.err e2)
    (h401b : statusOf e2 = some 401) :
    (∃ cfg, (responseErrorInterceptor s env e).result =
      Except.error (JsError.axios { e2 with config := cfg })) ∧
    (responseErrorInterceptor s env e).state.auth.isAuthenticated = true ∧
    (responseErrorInterceptor s env e).state.auth.accessToken =
      resp.body.access_token ∧
    (responseErrorInterceptor s env e).state.auth.refreshToken =
      resp.body.refresh_token := by
  have hcond : statusOf e = some 401 ∧ e.config._retry = false := ⟨h401, hretry⟩
  unfold responseErrorInterceptor
  rw [if_pos hcond, htok]
  simp only [if_true, hrefresh, hretryOut]
  simp only [refreshAccessToken, htok, if_true]
  exact ⟨⟨_, rfl⟩, trivial, trivial, trivial⟩

theorem c2_amended_witness :
    (∃ cfg, (responseErrorInterceptor loggedIn c2Env origErr401).result =
      Except.error (JsError.axios { retryErr401 with config := cfg })) ∧
    (responseErrorInterceptor loggedIn c2Env origErr401).state.auth.isAuthenticated = true ∧
    (responseErrorInterceptor loggedIn c2Env origErr401).state.auth.accessToken =
      some "newtok" ∧
    (responseErrorInterceptor loggedIn c2Env origErr401).state.auth.refreshToken =
      some "rtok2" :=
  c2_amended loggedIn c2Env origErr401
    { status := 200, body := refreshedBody, retryAfter := none }
    retryErr401 rfl rfl rfl rfl rfl rfl

/-- A login response carrying no refresh token; the resulting session
holds an access token but no refresh token. -/
def noRefreshBody : ResponseBody :=
  { access_token := some "tok", refresh_token := none,
    user := some "bob", detail := none }

/-- The session after such a login. -/
def noRefreshState : ClientState :=
  (login initialState (ApiOutcome.ok
    { status := 200, body := noRefreshBody, retryAfter := none })).1

/-- A 401 hitting that session. -/
def c3Err : AxiosErr :=
  { config := resolveRequest noRefreshState 1 plainCfg,
    response := some { status := 401, body := emptyBody, retryAfter := none },
    message := "Request failed with status code 401" }

/-- Counterexample to claim C3 as stated: on a 401 with no refresh token
present, the client neither clears the session (it stays authenticated
and untouched) nor redirects to the login entry point. -/
theorem c3_counterexample :
    (responseErrorInterceptor noRefreshState idleEnv c3Err).state = noRefreshState ∧
    (responseErrorInterceptor noRefreshState idleEnv c3Err).state.auth.isAuthenticated = true ∧
    Effect.redirect "/login" ∉
      (responseErrorInterceptor noRefreshState idleEnv c3Err).effects := by
  decide

/-- Claim C3 as amended: on a 401 for a not-yet-retried config, (a) when a
refresh token is held and the refresh operation fails, the session is
cleared (logout), the client navigates to `/login`, and the *refresh*
error is propagated; (b) when no refresh token is (truthily) held, the
session is left untouched, no redirect happens, and the *original* 401
error is propagated (with its config now marked as retried). -/
theorem c3_amended (s : ClientState) (env : Env) (e : AxiosErr)
    (h401 : statusOf e = some 401) (hretry : e.config._retry = false) :
    (∀ e2, truthy s.auth.refreshToken = true →
      env.refreshOutcome = ApiOutcome.err e2 →
      sessionCleared (responseErrorInterceptor s env e).state ∧
      (responseErrorInterceptor s env e).state.authHeader = none ∧
      Effect.redirect "/login" ∈ (responseErrorInterceptor s env e).effects ∧
      (responseErrorInterceptor s env e).result =
        Except.error (JsError.axios e2)) ∧
    (truthy s.auth.refreshToken = false →
      (responseErrorInterceptor s env e).state = s ∧
      Effect.redirect "/login" ∉ (responseErrorInterceptor s env e).effects ∧
      (responseErrorInterceptor s env e).result =
        Except.error (JsError.axios { e with config :=
          { e.config with _retry := true } })) := by
  have hcond : statusOf e = some 401 ∧ e.config._retry = false := ⟨h401, hretry⟩
  constructor
  · intro e2 htok hrefresh
    unfold responseErrorInterceptor
    rw [if_pos hcond, htok]
    simp only [if_true, hrefresh]
    simp only [refreshAccessToken, htok, if_true]
    refine ⟨⟨?_, ?_, ?_, ?_⟩, ?_, ?_, ?_⟩ <;> simp [logout]
  · intro htok
    unfold responseErrorInterceptor
    rw [if_pos hcond, htok]
    simp only [Bool.false_eq_true, if_false]
    refine ⟨?_, redirect_not_in_statusToasts e "/login", ?_⟩ <;>
      first | rfl | trivial

/-- A failed `/auth/refresh` call. -/
def refreshFailedErr : AxiosErr :=
  { config := plainCfg,
    response := some { status := 401, body := emptyBody, retryAfter := none },
    message := "Request failed with status code 401" }

/-- Environment in which the refresh POST fails. -/
def refreshFailEnv : Env :=
  { refreshOutcome := ApiOutcome.err refreshFailedErr,
    retryNow := 2,
    retryOutcome := ApiOutcome.ok { status := 200, body := emptyBody, retryAfter := none },
    logoutCallOk := true, logoutCallOk2 := true }

theorem c3_amended_witness :
    sessionCleared (responseErrorInterceptor loggedIn refreshFailEnv origErr401).state ∧
    Effect.redirect "/login" ∈
      (responseErrorInterceptor loggedIn refreshFailEnv origErr401).effects ∧
    (responseErrorInterceptor loggedIn refreshFailEnv origErr401).result =
      Except.error (JsError.axios refreshFailedErr) := by
  have h := (c3_amended loggedIn refreshFailEnv origErr401 rfl rfl).1
    refreshFailedErr rfl rfl
  exact ⟨h.1, h.2.2.1, h.2.2.2⟩

/-- Environment for the happy retry: refresh succeeds with a new token,
the re-issued request resolves 200. -/
def c1Env : Env :=
  { refreshOutcome :=
      ApiOutcome.ok { status := 200, body := refreshedBody, retryAfter := none },
    retryNow := 2,
    retryOutcome := ApiOutcome.ok { status := 200, body := emptyBody, retryAfter := none },
    logoutCallOk := true, logoutCallOk2 := true }

/-- Claim C1, evaluated at its failing input: after the 401, the refresh
succeeds and installs `Bearer newtok` as the default header, the original
request is re-issued exactly once and the overall call resolves with the
retry's 2xx response — but the re-issued request still carries the
original config's `Authorization: Bearer oldtok` (the config's own header
takes precedence over the refreshed default on re-dispatch), not the newly
refreshed access token. -/
theorem c1_retry_carries_stale_token :
    (responseErrorInterceptor loggedIn c1Env origErr401).state.authHeader =
      some "Bearer newtok" ∧
    ((responseErrorInterceptor loggedIn c1Env origErr401).retried.map
      (fun c => lookupKey c.headers "Authorization")) =
      some (some "Bearer oldtok") ∧
    (responseErrorInterceptor loggedIn c1Env origErr401).result =
      Except.ok { status := 200, body := emptyBody, retryAfter := none } :=
  ⟨rfl, rfl, rfl⟩

/-- Claim C10: the `apiClient` helpers never reject — each is a total
function into `ClientResult` — and resolve `{ data, success: true }` on
success and `{ data: null, success: false, error: detail || message }` on
any error, identically for get, post, put and delete. -/
theorem c10_apiClient_never_rejects (r : HttpResponse) (e : AxiosErr) :
    apiClient.get (ApiOutcome.ok r) =
      { data := some r.body, success := true, error := none } ∧
    apiClient.post (ApiOutcome.ok r) =
      { data := some r.body, success := true, error := none } ∧
    apiClient.put (ApiOutcome.ok r) =
      { data := some r.body, success := true, error := none } ∧
    apiClient.delete (ApiOutcome.ok r) =
      { data := some r.body, success := true, error := none } ∧
    apiClient.get (ApiOutcome.err e) =
      { data := none, success := false,
        error := some (jsOr (e.response.bind (fun x => x.body.detail)) e.message) } ∧
    apiClient.post (ApiOutcome.err e) =
      { data := none, success := false,
        error := some (jsOr (e.response.bind (fun x => x.body.detail)) e.message) } ∧
    apiClient.put (ApiOutcome.err e) =
      { data := none, success := false,
        error := some (jsOr (e.response.bind (fun x => x.body.detail)) e.message) } ∧
    apiClient.delete (ApiOutcome.err e) =
      { data := none, success := false,
        error := some (jsOr (e.response.bind (fun x => x.body.detail)) e.message) } :=
  ⟨rfl, rfl, rfl, rfl, rfl, rfl, rfl, rfl⟩

end FacebookInsights
